import Mathlib

/-!
Shallow embedding of the interview page of the AI viva platform
(`src/frontend/src/app/interview/page.tsx`).

The page is a React component whose state consists of the session id, the
recording / processing / AI-speaking flags, the message transcript, the
optional final score, the session-ended flag and the elapsed-time counter.
Its event handlers (`startSession`, `toggleRecording`, `startRecording`,
`stopRecording`, `endSession`, the timer callbacks scheduled with
`setTimeout`, and the one-second tick) are embedded below as pure functions
on a `PageState` record.  Each `setTimeout` callback is modelled as a
separate event.  Two timer slots are carried in the state: `greetPending`
for the 3000 ms greeting-animation timeout scheduled by the success branch
of `startSession`, and `cyclePending` for the recording-cycle timeouts
(`stopRecording` schedules the 1500 ms processing callback, whose body
schedules the nested 2000 ms speaking callback), so a greeting timeout and
a recording-cycle timeout can be pending at the same time, as in the
program.  Events carry only the guards the source imposes: a timer
callback fires only while it is the scheduled one, the record and
end-session controls are rendered only while the session is not ended, the
interval ticks only while a session id is set and the session is not
ended, and the single mount effect resolves its fetch exactly once, with
either outcome, at an arbitrary point of the event order — in particular
the record button is clickable while the start fetch is still pending.
Real time (the `Date` timestamps and the millisecond delays) is not part
of the embedding; only the order of events is.
-/

namespace Viva

/-- The `role` field of a chat message: `'user' | 'assistant'`. -/
inductive Role
  | user
  | assistant
deriving DecidableEq, Repr

/-- The `Message` interface (lines 9-14 of the page); the `Date` timestamp
is real time and is not carried in the embedding. -/
structure Message where
  id : String
  role : Role
  content : String
deriving DecidableEq, Repr

/-- The `Score` interface (lines 16-24 of the page).  The numeric fields
are modelled as exact rationals; every literal the page assigns to them is
a decimal with at most one fractional digit, so the model is exact. -/
structure Score where
  technical_accuracy : ℚ
  clarity : ℚ
  depth : ℚ
  confidence : ℚ
  communication : ℚ
  overall : ℚ
  feedback : String
deriving DecidableEq, Repr

/-- Which recording-cycle `setTimeout` callback is currently scheduled:
none, the 1500 ms processing callback of `stopRecording`, or the nested
2000 ms speaking callback.  At most one is pending at a time because the
processing callback is what schedules the speaking one, and the record
button stays disabled (`isProcessing || isAISpeaking`) for the whole
cycle, so a new cycle cannot be started while one is in flight. -/
inductive Pending
  | idle
  | processDone
  | speakDone
deriving DecidableEq, Repr

/-- The component state of `InterviewPage` (lines 28-36), together with
the two timer slots described in the module docstring. -/
structure PageState where
  sessionId : Option String
  isRecording : Bool
  isProcessing : Bool
  isAISpeaking : Bool
  messages : List Message
  score : Option Score
  sessionEnded : Bool
  time : Nat
  greetPending : Bool
  cyclePending : Pending
deriving DecidableEq, Repr

/-- The initial component state: `useState` initialisers of lines 28-36,
with no timer scheduled. -/
def initState : PageState :=
  { sessionId := none
    isRecording := false
    isProcessing := false
    isAISpeaking := false
    messages := []
    score := none
    sessionEnded := false
    time := 0
    greetPending := false
    cyclePending := Pending.idle }

/-- The fixed greeting text used by both branches of `startSession`
(lines 74 and 88). -/
def welcomeContent : String :=
  "Hello! Welcome to your DSA viva. I'll be evaluating your understanding of data structures and algorithms. Let's begin with a fundamental question: Can you explain what a linked list is and how it differs from an array?"

/-- The welcome message written on session start (lines 71-76 / 85-90). -/
def welcomeMessage : Message :=
  { id := "1", role := Role.assistant, content := welcomeContent }

/-- The canned student answer appended by the `stopRecording` timeout
(line 118). -/
def studentAnswerContent : String :=
  "A linked list is a linear data structure where elements are stored in nodes. Each node contains data and a pointer to the next node. Unlike arrays, linked lists don't require contiguous memory allocation, which makes insertion and deletion more efficient at O(1) when you have the reference. However, accessing elements is O(n) compared to O(1) for arrays."

/-- The canned interviewer follow-up appended by the nested timeout
(line 132). -/
def followUpContent : String :=
  "Good explanation! You've covered the key differences. Now, can you tell me about the different types of linked lists and when you might use each one?"

/-- The feedback text of the mock score (line 152). -/
def feedbackContent : String :=
  "Strong understanding of fundamentals. Consider discussing time/space complexity trade-offs more explicitly. Good clear communication style."

/-- The mock score assigned by `endSession` (lines 145-153). -/
def mockScore : Score :=
  { technical_accuracy := 8.5
    clarity := 7.8
    depth := 7.2
    confidence := 8.0
    communication := 8.3
    overall := 7.9
    feedback := feedbackContent }

/-- Success branch of `startSession` (lines 66-79): store the session id,
replace the transcript with the welcome message (`setMessages([...])` is a
replacement, not an append), start the AI-speaking animation and schedule
the 3000 ms timeout that ends it. -/
def startSessionOk (sid : String) (s : PageState) : PageState :=
  { s with sessionId := some sid
           messages := [welcomeMessage]
           isAISpeaking := true
           greetPending := true }

/-- The 3000 ms timeout of line 79: `setIsAISpeaking(false)`. -/
def greetTimerFire (s : PageState) : PageState :=
  { s with isAISpeaking := false, greetPending := false }

/-- Catch branch of `startSession` (lines 81-91): the network failure is
logged to the console only; the page falls back to the fixed session id
`demo-session` and the same welcome message (again a replacement). -/
def startSessionErr (s : PageState) : PageState :=
  { s with sessionId := some "demo-session"
           messages := [welcomeMessage] }

/-- `startRecording` (lines 102-105); the TODO comment in the source notes
that no actual audio is captured. -/
def startRecording (s : PageState) : PageState :=
  { s with isRecording := true }

/-- `stopRecording` (lines 107-110): clear the recording flag, set the
processing flag and schedule the 1500 ms processing timeout. -/
def stopRecording (s : PageState) : PageState :=
  { s with isRecording := false
           isProcessing := true
           cyclePending := Pending.processDone }

/-- The canned student turn appended by the processing timeout; its id is
`String(prev.length + 1)` (line 116). -/
def studentReplyMessage (k : Nat) : Message :=
  { id := toString k, role := Role.user, content := studentAnswerContent }

/-- The canned interviewer follow-up turn; its id is
`String(prev.length + 1)` at the time of the nested timeout (line 130). -/
def followUpMessage (k : Nat) : Message :=
  { id := toString k, role := Role.assistant, content := followUpContent }

/-- The 1500 ms timeout of `stopRecording` (lines 112-124): append the
canned student answer, clear the processing flag, start the AI-speaking
animation and schedule the nested 2000 ms timeout. -/
def processTimerFire (s : PageState) : PageState :=
  { s with messages := s.messages ++ [studentReplyMessage (s.messages.length + 1)]
           isProcessing := false
           isAISpeaking := true
           cyclePending := Pending.speakDone }

/-- The nested 2000 ms timeout (lines 126-137): append the canned
interviewer follow-up and end the AI-speaking animation. -/
def speakTimerFire (s : PageState) : PageState :=
  { s with messages := s.messages ++ [followUpMessage (s.messages.length + 1)]
           isAISpeaking := false
           cyclePending := Pending.idle }

/-- `endSession` (lines 141-154): mark the session ended and store the
mock score. -/
def endSession (s : PageState) : PageState :=
  { s with sessionEnded := true, score := some mockScore }

/-- `toggleRecording` (lines 94-100). -/
def toggleRecording (s : PageState) : PageState :=
  if s.isRecording then stopRecording s else startRecording s

/-- The `disabled` guard of the record button (line 234):
`disabled={isProcessing || isAISpeaking}`. -/
def recordButtonDisabled (s : PageState) : Bool :=
  s.isProcessing || s.isAISpeaking

/-- A click on the record button: a disabled button fires no handler, so
the click is a no-op exactly when `recordButtonDisabled` holds. -/
def clickRecordButton (s : PageState) : PageState :=
  if recordButtonDisabled s then s else toggleRecording s

/-- The one-second interval of lines 39-46: `setTime(t => t + 1)`. -/
def tickTimer (s : PageState) : PageState :=
  { s with time := s.time + 1 }

/-- One event of the page.  The guards are only those the source imposes:
the single mount fetch resolves exactly once (while no session id is set
yet), with either outcome, at an arbitrary point of the event order; each
timer callback fires only while it is the scheduled one; the record button
and the end-session button are rendered only while the session is not
ended (lines 225 and 189) — in particular the record button is clickable
while the start fetch is still pending; the interval ticks only while a
session id is set and the session is not ended (line 40). -/
inductive Step : PageState → PageState → Prop
  | startOk (sid : String) (s : PageState) :
      s.sessionId = none → Step s (startSessionOk sid s)
  | startErr (s : PageState) :
      s.sessionId = none → Step s (startSessionErr s)
  | greetEnd (s : PageState) :
      s.greetPending = true → Step s (greetTimerFire s)
  | click (s : PageState) :
      s.sessionEnded = false → Step s (clickRecordButton s)
  | processTimer (s : PageState) :
      s.cyclePending = Pending.processDone → Step s (processTimerFire s)
  | speakTimer (s : PageState) :
      s.cyclePending = Pending.speakDone → Step s (speakTimerFire s)
  | endClick (s : PageState) :
      s.sessionEnded = false → Step s (endSession s)
  | tick (s : PageState) :
      s.sessionId ≠ none → s.sessionEnded = false → Step s (tickTimer s)

/-- The states the page can reach from its initial state. -/
inductive Reachable : PageState → Prop
  | init : Reachable initState
  | step {s s' : PageState} : Reachable s → Step s s' → Reachable s'

/-- The states of an orderly session: one in which the start fetch
resolved (with either outcome) before any user interaction or timer — the
race-free executions.  The general `Reachable` also contains the racy
executions in which the user records while the start fetch is pending. -/
inductive OrderlyReachable : PageState → Prop
  | startOk (sid : String) : OrderlyReachable (startSessionOk sid initState)
  | startErr : OrderlyReachable (startSessionErr initState)
  | greetEnd {s : PageState} : OrderlyReachable s →
      s.greetPending = true → OrderlyReachable (greetTimerFire s)
  | click {s : PageState} : OrderlyReachable s →
      s.sessionEnded = false → OrderlyReachable (clickRecordButton s)
  | processTimer {s : PageState} : OrderlyReachable s →
      s.cyclePending = Pending.processDone →
      OrderlyReachable (processTimerFire s)
  | speakTimer {s : PageState} : OrderlyReachable s →
      s.cyclePending = Pending.speakDone →
      OrderlyReachable (speakTimerFire s)
  | endClick {s : PageState} : OrderlyReachable s →
      s.sessionEnded = false → OrderlyReachable (endSession s)
  | tick {s : PageState} : OrderlyReachable s → s.sessionId ≠ none →
      s.sessionEnded = false → OrderlyReachable (tickTimer s)

/-- The speaker sequence of a transcript. -/
def rolesOf (ms : List Message) : List Role :=
  ms.map Message.role

/-- The arithmetic mean of the five sub-scores, as the spec's scenario
describes the aggregate under default equal rubric weights. -/
def subScoreMean (sc : Score) : ℚ :=
  (sc.technical_accuracy + sc.clarity + sc.depth + sc.confidence +
    sc.communication) / 5

/-- The state in which the user has recorded and the processing timeout
has fired while the start fetch is still pending: the transcript already
holds the canned student turn, but no session id is set and the nested
speaking timeout is scheduled. -/
def preStartRecording : PageState :=
  processTimerFire (clickRecordButton (clickRecordButton initState))

/-- JS `String.prototype.padStart`: pad on the left with `padChar` up to
`targetLength`; a string already at least that long is returned unchanged
(line 159 of the page). -/
def padStart (s : String) (targetLength : Nat) (padChar : Char) : String :=
  if targetLength ≤ s.length then s
  else String.mk (List.replicate (targetLength - s.length) padChar) ++ s

/-- `formatTime` (lines 156-160): minutes are `Math.floor(seconds / 60)`,
seconds are `seconds % 60`, each printed and padded with
`padStart(2, '0')`, joined by a colon. -/
def formatTime (seconds : Nat) : String :=
  padStart (toString (seconds / 60)) 2 '0' ++ ":" ++
    padStart (toString (seconds % 60)) 2 '0'

/-- The rendering described by the amended reading of the formatter claim:
a decimal numeral zero-padded on the left to a minimum width of two
digits. -/
def zeroPadTwo (n : Nat) : String :=
  if n < 10 then "0" ++ toString n else toString n

/-- The invariant of orderly sessions: the transcript starts with the
interviewer and alternates speakers; the last recorded speaker matches the
recording-cycle phase; the processing flag is set exactly while the
processing callback is scheduled; the AI-speaking flag is set while the
speaking or greeting callback is scheduled; and while the greeting
callback is scheduled no recording cycle is in flight. -/
structure Inv (s : PageState) : Prop where
  alt : List.Chain' Ne (rolesOf s.messages)
  head : (rolesOf s.messages).head? = some Role.assistant
  sid : s.sessionId ≠ none
  procIff : s.isProcessing = true ↔ s.cyclePending = Pending.processDone
  idleLast : s.cyclePending = Pending.idle →
    (rolesOf s.messages).getLast? = some Role.assistant
  procLast : s.cyclePending = Pending.processDone →
    (rolesOf s.messages).getLast? = some Role.assistant
  speakLast : s.cyclePending = Pending.speakDone →
    (rolesOf s.messages).getLast? = some Role.user
  speakAI : s.cyclePending = Pending.speakDone → s.isAISpeaking = true
  greetAI : s.greetPending = true → s.isAISpeaking = true
  greetCycle : s.greetPending = true → s.cyclePending = Pending.idle

lemma rolesOf_append (ms : List Message) (m : Message) :
    rolesOf (ms ++ [m]) = rolesOf ms ++ [m.role] := by
  simp [rolesOf]

lemma head?_append_left {α : Type} (l₁ l₂ : List α) (h : l₁ ≠ []) :
    (l₁ ++ l₂).head? = l₁.head? := by
  cases l₁ with
  | nil => exact absurd rfl h
  | cons a t => rfl

lemma ne_nil_of_getLast?_eq_some {α : Type} {l : List α} {a : α}
    (h : l.getLast? = some a) : l ≠ [] := by
  intro hl
  rw [hl] at h
  exact Option.noConfusion h

lemma proc_false_of_pending_ne {s : PageState} (inv : Inv s)
    (h : s.cyclePending ≠ Pending.processDone) : s.isProcessing = false := by
  cases hp : s.isProcessing
  · rfl
  · exact absurd (inv.procIff.mp hp) h

lemma inv_base_ok (sid : String) : Inv (startSessionOk sid initState) := by
  refine ⟨?_, ?_, ?_, ?_, ?_, ?_, ?_, ?_, ?_, ?_⟩ <;>
    simp [startSessionOk, initState, rolesOf, welcomeMessage]

lemma inv_base_err : Inv (startSessionErr initState) := by
  refine ⟨?_, ?_, ?_, ?_, ?_, ?_, ?_, ?_, ?_, ?_⟩ <;>
    simp [startSessionErr, initState, rolesOf, welcomeMessage]

lemma inv_greetEnd {s : PageState} (inv : Inv s)
    (hg : s.greetPending = true) : Inv (greetTimerFire s) := by
  have hcyc : s.cyclePending = Pending.idle := inv.greetCycle hg
  refine ⟨inv.alt, inv.head, inv.sid, inv.procIff, inv.idleLast,
    inv.procLast, inv.speakLast, ?_, ?_, ?_⟩
  · intro h
    have h' : s.cyclePending = Pending.speakDone := h
    rw [hcyc] at h'
    exact Pending.noConfusion h'
  · intro h
    exact Bool.noConfusion h
  · intro h
    exact Bool.noConfusion h

lemma inv_click {s : PageState} (inv : Inv s) : Inv (clickRecordButton s) := by
  by_cases hd : recordButtonDisabled s = true
  · simpa [clickRecordButton, hd] using inv
  · have hd' : recordButtonDisabled s = false := by
      revert hd; cases recordButtonDisabled s <;> simp
    have hproc : s.isProcessing = false := by
      revert hd'; unfold recordButtonDisabled
      cases s.isProcessing <;> simp
    have hai : s.isAISpeaking = false := by
      revert hd'; unfold recordButtonDisabled
      cases s.isAISpeaking <;> cases s.isProcessing <;> simp
    have hcyc : s.cyclePending = Pending.idle := by
      cases hpd : s.cyclePending
      · rfl
      · rw [inv.procIff.mpr hpd] at hproc; exact Bool.noConfusion hproc
      · rw [inv.speakAI hpd] at hai; exact Bool.noConfusion hai
    have hgp : s.greetPending = false := by
      cases hgpb : s.greetPending
      · rfl
      · rw [inv.greetAI hgpb] at hai; exact Bool.noConfusion hai
    have hlast := inv.idleLast hcyc
    rw [clickRecordButton, if_neg (by simp [hd'])]
    rw [toggleRecording]
    by_cases hr : s.isRecording = true
    · rw [if_pos hr]
      refine ⟨inv.alt, inv.head, inv.sid, ?_, ?_, ?_, ?_, ?_, ?_, ?_⟩
      · simp [stopRecording]
      · intro h; simp [stopRecording] at h
      · intro _; exact hlast
      · intro h; simp [stopRecording] at h
      · intro h; simp [stopRecording] at h
      · intro h
        have h' : s.greetPending = true := h
        rw [hgp] at h'
        exact Bool.noConfusion h'
      · intro h
        have h' : s.greetPending = true := h
        rw [hgp] at h'
        exact Bool.noConfusion h'
    · rw [if_neg hr]
      exact ⟨inv.alt, inv.head, inv.sid, inv.procIff, inv.idleLast,
        inv.procLast, inv.speakLast, inv.speakAI, inv.greetAI, inv.greetCycle⟩

lemma inv_processTimer {s : PageState} (inv : Inv s)
    (hp : s.cyclePending = Pending.processDone) : Inv (processTimerFire s) := by
  have hlast := inv.procLast hp
  have hne : rolesOf s.messages ≠ [] := ne_nil_of_getLast?_eq_some hlast
  have hgp : s.greetPending = false := by
    cases hgpb : s.greetPending
    · rfl
    · have h2 := inv.greetCycle hgpb
      rw [hp] at h2
      exact Pending.noConfusion h2
  refine ⟨?_, ?_, inv.sid, ?_, ?_, ?_, ?_, ?_, ?_, ?_⟩
  · show List.Chain' Ne
      (rolesOf (s.messages ++ [studentReplyMessage (s.messages.length + 1)]))
    rw [rolesOf_append]
    refine List.Chain'.append inv.alt (List.chain'_singleton _) ?_
    intro x hx y hy
    rw [hlast] at hx
    simp only [Option.mem_def, Option.some.injEq] at hx
    simp only [List.head?_cons, Option.mem_def, Option.some.injEq] at hy
    subst hx; subst hy
    simp [studentReplyMessage]
  · show (rolesOf
        (s.messages ++ [studentReplyMessage (s.messages.length + 1)])).head?
      = some Role.assistant
    rw [rolesOf_append, head?_append_left _ _ hne]
    exact inv.head
  · simp [processTimerFire]
  · intro h; simp [processTimerFire] at h
  · intro h; simp [processTimerFire] at h
  · intro _
    show (rolesOf
        (s.messages ++ [studentReplyMessage (s.messages.length + 1)])).getLast?
      = some Role.user
    rw [rolesOf_append, List.getLast?_append_cons]
    simp [studentReplyMessage]
  · intro _; simp [processTimerFire]
  · intro h
    have h' : s.greetPending = true := h
    rw [hgp] at h'
    exact Bool.noConfusion h'
  · intro h
    have h' : s.greetPending = true := h
    rw [hgp] at h'
    exact Bool.noConfusion h'

lemma inv_speakTimer {s : PageState} (inv : Inv s)
    (hp : s.cyclePending = Pending.speakDone) : Inv (speakTimerFire s) := by
  have hlast := inv.speakLast hp
  have hne : rolesOf s.messages ≠ [] := ne_nil_of_getLast?_eq_some hlast
  have hgp : s.greetPending = false := by
    cases hgpb : s.greetPending
    · rfl
    · have h2 := inv.greetCycle hgpb
      rw [hp] at h2
      exact Pending.noConfusion h2
  have hproc : s.isProcessing = false :=
    proc_false_of_pending_ne inv (by simp [hp])
  refine ⟨?_, ?_, inv.sid, ?_, ?_, ?_, ?_, ?_, ?_, ?_⟩
  · show List.Chain' Ne
      (rolesOf (s.messages ++ [followUpMessage (s.messages.length + 1)]))
    rw [rolesOf_append]
    refine List.Chain'.append inv.alt (List.chain'_singleton _) ?_
    intro x hx y hy
    rw [hlast] at hx
    simp only [Option.mem_def, Option.some.injEq] at hx
    simp only [List.head?_cons, Option.mem_def, Option.some.injEq] at hy
    subst hx; subst hy
    simp [followUpMessage]
  · show (rolesOf
        (s.messages ++ [followUpMessage (s.messages.length + 1)])).head?
      = some Role.assistant
    rw [rolesOf_append, head?_append_left _ _ hne]
    exact inv.head
  · show s.isProcessing = true ↔ Pending.idle = Pending.processDone
    simp [hproc]
  · intro _
    show (rolesOf
        (s.messages ++ [followUpMessage (s.messages.length + 1)])).getLast?
      = some Role.assistant
    rw [rolesOf_append, List.getLast?_append_cons]
    simp [followUpMessage]
  · intro h; simp [speakTimerFire] at h
  · intro h; simp [speakTimerFire] at h
  · intro h; simp [speakTimerFire] at h
  · intro h
    have h' : s.greetPending = true := h
    rw [hgp] at h'
    exact Bool.noConfusion h'
  · intro _; rfl

lemma inv_endClick {s : PageState} (inv : Inv s) : Inv (endSession s) :=
  ⟨inv.alt, inv.head, inv.sid, inv.procIff, inv.idleLast, inv.procLast,
    inv.speakLast, inv.speakAI, inv.greetAI, inv.greetCycle⟩

lemma inv_tick {s : PageState} (inv : Inv s) : Inv (tickTimer s) :=
  ⟨inv.alt, inv.head, inv.sid, inv.procIff, inv.idleLast, inv.procLast,
    inv.speakLast, inv.speakAI, inv.greetAI, inv.greetCycle⟩

lemma inv_of_orderly {s : PageState} (h : OrderlyReachable s) : Inv s := by
  induction h with
  | startOk sid => exact inv_base_ok sid
  | startErr => exact inv_base_err
  | greetEnd _ hg ih => exact inv_greetEnd ih hg
  | click _ _ ih => exact inv_click ih
  | processTimer _ hp ih => exact inv_processTimer ih hp
  | speakTimer _ hp ih => exact inv_speakTimer ih hp
  | endClick _ _ ih => exact inv_endClick ih
  | tick _ _ _ ih => exact inv_tick ih

lemma clickRecordButton_messages (s : PageState) :
    (clickRecordButton s).messages = s.messages := by
  unfold clickRecordButton toggleRecording
  split
  · rfl
  · split <;> rfl

lemma toDigitsCore_length_lower (fuel : Nat) :
    ∀ (m : Nat) (ds : List Char), 0 < fuel →
      ds.length + 1 ≤ (Nat.toDigitsCore 10 fuel m ds).length := by
  induction fuel with
  | zero => intro m ds h; omega
  | succ f ih =>
    intro m ds _
    simp only [Nat.toDigitsCore]
    split
    · simp
    · cases f with
      | zero => simp [Nat.toDigitsCore]
      | succ f' =>
        have h := ih (m / 10) (Nat.digitChar (m % 10) :: ds) (Nat.succ_pos f')
        simp only [List.length_cons] at h
        omega

lemma two_le_toString_length (n : Nat) (h : 10 ≤ n) :
    2 ≤ (toString n).length := by
  show 2 ≤ (Nat.repr n).length
  have hdiv : n / 10 ≠ 0 := by omega
  unfold Nat.repr Nat.toDigits
  simp only [Nat.toDigitsCore, hdiv, if_false]
  have h1 := toDigitsCore_length_lower n (n / 10)
    [Nat.digitChar (n % 10)] (by omega)
  simp only [List.length_cons, List.length_nil] at h1
  simp only [List.asString, String.length]
  omega

lemma toString_length_one (n : Nat) (h : n < 10) : (toString n).length = 1 := by
  interval_cases n <;> decide

lemma padStart_two_eq (n : Nat) : padStart (toString n) 2 '0' = zeroPadTwo n := by
  by_cases h : n < 10
  · have h1 : (toString n).length = 1 := toString_length_one n h
    simp only [padStart, zeroPadTwo, h1, h, if_true]
    norm_num
  · have h2 : 2 ≤ (toString n).length := two_le_toString_length n (by omega)
    simp only [padStart, zeroPadTwo, h2, if_true, h, if_false]

/-- C1: the claim fails on the code.  `endSession` stores the constant
`mockScore`, whose aggregate `overall` is the literal `7.9`, while the
arithmetic mean of the five sub-scores is `7.96`; the difference is
`0.06 = 3/50`, far beyond any floating-point tolerance, so the aggregate
is not the mean of the sub-scores. -/
theorem c1_counterexample :
    (endSession initState).score = some mockScore ∧
      mockScore.overall ≠ subScoreMean mockScore ∧
      subScoreMean mockScore - mockScore.overall = 3 / 50 := by
  refine ⟨rfl, ?_, ?_⟩ <;> norm_num [subScoreMean, mockScore]

/-- C1 (amended): the Score produced at session end has the constant
aggregate `7.9`, while the arithmetic mean of its five sub-scores is
`7.96`; the aggregate falls short of the mean by exactly `3/50 = 0.06`
rather than equalling it. -/
theorem c1_overall_vs_mean (s : PageState) (sc : Score)
    (h : (endSession s).score = some sc) :
    subScoreMean sc = 7.96 ∧ sc.overall = 7.9 ∧
      subScoreMean sc - sc.overall = 3 / 50 := by
  have hsc : mockScore = sc := Option.some.inj h
  subst hsc
  norm_num [subScoreMean, mockScore]

/-- C1 witness: the amended statement evaluated on the score `endSession`
actually stores. -/
theorem c1_witness :
    subScoreMean mockScore = 7.96 ∧ mockScore.overall = 7.9 ∧
      subScoreMean mockScore - mockScore.overall = 3 / 50 :=
  c1_overall_vs_mean initState mockScore rfl

/-- C2: invoking end-session from any state marks the session ended and
stores a Score whose five sub-scores, aggregate and non-empty feedback
text are all present; moreover no event of the page ever clears the
ended flag, so `Ended` is terminal. -/
theorem c2_end_session (s : PageState) :
    ((endSession s).sessionEnded = true ∧
      ∃ sc : Score, (endSession s).score = some sc ∧
        sc.technical_accuracy = 8.5 ∧ sc.clarity = 7.8 ∧ sc.depth = 7.2 ∧
        sc.confidence = 8.0 ∧ sc.communication = 8.3 ∧ sc.overall = 7.9 ∧
        sc.feedback ≠ "") ∧
    ∀ t t' : PageState, t.sessionEnded = true → Step t t' →
      t'.sessionEnded = true := by
  refine ⟨⟨rfl, mockScore, rfl, rfl, rfl, rfl, rfl, rfl, ?_⟩, ?_⟩
  · simp [mockScore, feedbackContent]
  · intro t t' h st
    cases st with
    | startOk sid s hn => exact h
    | startErr s hn => exact h
    | greetEnd s hg => exact h
    | click s hend => rw [h] at hend; exact Bool.noConfusion hend
    | processTimer s hp => exact h
    | speakTimer s hp => exact h
    | endClick s hend => rw [h] at hend; exact Bool.noConfusion hend
    | tick s hs hend => rw [h] at hend; exact Bool.noConfusion hend

/-- C2 witness: ending the initial session marks it ended, and a further
step (the failing start fetch resolving afterwards) leaves it ended. -/
theorem c2_witness :
    (endSession initState).sessionEnded = true ∧
      (startSessionErr (endSession initState)).sessionEnded = true :=
  ⟨(c2_end_session initState).1.1,
    (c2_end_session initState).2 (endSession initState)
      (startSessionErr (endSession initState)) rfl
      (Step.startErr (endSession initState) rfl)⟩

/-- C3: the claim fails on the code.  If the user records and the
processing timeout appends the canned student turn while the start fetch
is still pending, the resolving success branch replaces the transcript
with the greeting while the nested speaking timeout is still scheduled;
when it fires, the transcript of the started session is two consecutive
interviewer turns, so the alternation claimed for every session is
violated. -/
theorem c3_counterexample :
    Reachable (speakTimerFire (startSessionOk "s1" preStartRecording)) ∧
      (speakTimerFire (startSessionOk "s1" preStartRecording)).sessionId
        = some "s1" ∧
      rolesOf (speakTimerFire
          (startSessionOk "s1" preStartRecording)).messages
        = [Role.assistant, Role.assistant] ∧
      ¬ List.Chain' Ne (rolesOf (speakTimerFire
          (startSessionOk "s1" preStartRecording)).messages) := by
  refine ⟨?_, rfl, rfl, ?_⟩
  · exact Reachable.step (Reachable.step (Reachable.step (Reachable.step
      (Reachable.step Reachable.init (Step.click initState rfl))
      (Step.click (clickRecordButton initState) rfl))
      (Step.processTimer (clickRecordButton (clickRecordButton initState)) rfl))
      (Step.startOk "s1" preStartRecording rfl))
      (Step.speakTimer (startSessionOk "s1" preStartRecording) rfl)
  · show ¬ List.Chain' Ne [Role.assistant, Role.assistant]
    intro h
    exact (List.chain'_cons.mp h).1 rfl

/-- C3 (amended): in every orderly session — one whose start fetch
resolved before any user interaction, the race-free executions — the
transcript always begins with the interviewer greeting and consecutive
turns always switch speaker (with two speakers, `Ne`-chaining is exactly
alternation).  The alternation can only be broken by a recording completed
concurrently with the start fetch, as in the counterexample. -/
theorem c3_orderly_transcript_alternates (s : PageState)
    (hr : OrderlyReachable s) :
    (rolesOf s.messages).head? = some Role.assistant ∧
      List.Chain' Ne (rolesOf s.messages) :=
  ⟨(inv_of_orderly hr).head, (inv_of_orderly hr).alt⟩

/-- C3 witness: the session reached through the demo fallback satisfies
the alternation property. -/
theorem c3_witness :
    (rolesOf (startSessionErr initState).messages).head?
        = some Role.assistant ∧
      List.Chain' Ne (rolesOf (startSessionErr initState).messages) :=
  c3_orderly_transcript_alternates (startSessionErr initState)
    OrderlyReachable.startErr

/-- C4: the claim fails on the code.  With a recording completed while the
start fetch is pending, the transcript already holds the canned student
turn when the success branch runs `setMessages([welcome])`: that write
replaces the transcript, destroying the previously appended turn, so not
every transcript-changing operation is an append. -/
theorem c4_counterexample :
    Reachable preStartRecording ∧
      Step preStartRecording (startSessionOk "s1" preStartRecording) ∧
      ¬ (preStartRecording.messages <+:
          (startSessionOk "s1" preStartRecording).messages) := by
  refine ⟨?_, Step.startOk "s1" preStartRecording rfl, by decide⟩
  exact Reachable.step (Reachable.step (Reachable.step Reachable.init
    (Step.click initState rfl))
    (Step.click (clickRecordButton initState) rfl))
    (Step.processTimer (clickRecordButton (clickRecordButton initState)) rfl)

/-- C4 (amended): every event of the page either leaves the old transcript
a prefix of the new one (turns are only appended at the end, never edited
or reordered) or is a session-start response, which replaces the
transcript with the single greeting — an append exactly when the
transcript is still empty.  In particular, in an orderly session (start
resolved before any interaction) every event is append-only, because the
start response can no longer fire. -/
theorem c4_transcript_steps (s s' : PageState) (st : Step s s') :
    (s.messages <+: s'.messages ∨ s'.messages = [welcomeMessage]) ∧
    (OrderlyReachable s → s.messages <+: s'.messages) := by
  constructor
  · cases st with
    | startOk sid s h => exact Or.inr rfl
    | startErr s h => exact Or.inr rfl
    | greetEnd s h => exact Or.inl (List.prefix_refl _)
    | click s hend => exact Or.inl (by rw [clickRecordButton_messages])
    | processTimer s h => exact Or.inl (List.prefix_append _ _)
    | speakTimer s h => exact Or.inl (List.prefix_append _ _)
    | endClick s h => exact Or.inl (List.prefix_refl _)
    | tick s h hend => exact Or.inl (List.prefix_refl _)
  · intro hr
    have hsid := (inv_of_orderly hr).sid
    cases st with
    | startOk sid s h => exact absurd h hsid
    | startErr s h => exact absurd h hsid
    | greetEnd s h => exact List.prefix_refl _
    | click s hend => rw [clickRecordButton_messages]
    | processTimer s h => exact List.prefix_append _ _
    | speakTimer s h => exact List.prefix_append _ _
    | endClick s h => exact List.prefix_refl _
    | tick s h hend => exact List.prefix_refl _

/-- C4 witness: the processing-timeout append step in an orderly demo
session (start, then click to record, click to stop) extends the
transcript. -/
theorem c4_witness :
    ((clickRecordButton (clickRecordButton
          (startSessionErr initState))).messages <+:
        (processTimerFire (clickRecordButton (clickRecordButton
          (startSessionErr initState)))).messages
      ∨ (processTimerFire (clickRecordButton (clickRecordButton
          (startSessionErr initState)))).messages = [welcomeMessage]) ∧
    (clickRecordButton (clickRecordButton
        (startSessionErr initState))).messages <+:
      (processTimerFire (clickRecordButton (clickRecordButton
        (startSessionErr initState)))).messages :=
  ⟨(c4_transcript_steps
      (clickRecordButton (clickRecordButton (startSessionErr initState)))
      (processTimerFire (clickRecordButton (clickRecordButton
        (startSessionErr initState))))
      (Step.processTimer (clickRecordButton (clickRecordButton
        (startSessionErr initState))) rfl)).1,
   (c4_transcript_steps
      (clickRecordButton (clickRecordButton (startSessionErr initState)))
      (processTimerFire (clickRecordButton (clickRecordButton
        (startSessionErr initState))))
      (Step.processTimer (clickRecordButton (clickRecordButton
        (startSessionErr initState))) rfl)).2
     (OrderlyReachable.click
       (OrderlyReachable.click OrderlyReachable.startErr rfl) rfl)⟩

/-- C5: scoring a session twice over identical transcripts yields
identical sub-scores and identical aggregates; in this code the scoring
operation is the constant `mockScore`, so it is trivially a pure,
deterministic function of its input. -/
theorem c5_scoring_pure (s₁ s₂ : PageState) (_h : s₁.messages = s₂.messages) :
    ∃ sc₁ sc₂ : Score, (endSession s₁).score = some sc₁ ∧
      (endSession s₂).score = some sc₂ ∧ sc₁.overall = sc₂.overall ∧
      sc₁.technical_accuracy = sc₂.technical_accuracy ∧
      sc₁.clarity = sc₂.clarity ∧ sc₁.depth = sc₂.depth ∧
      sc₁.confidence = sc₂.confidence ∧
      sc₁.communication = sc₂.communication :=
  ⟨mockScore, mockScore, rfl, rfl, rfl, rfl, rfl, rfl, rfl, rfl⟩

/-- C5 witness: scoring the initial state twice agrees. -/
theorem c5_witness :
    ∃ sc₁ sc₂ : Score, (endSession initState).score = some sc₁ ∧
      (endSession initState).score = some sc₂ ∧ sc₁.overall = sc₂.overall ∧
      sc₁.technical_accuracy = sc₂.technical_accuracy ∧
      sc₁.clarity = sc₂.clarity ∧ sc₁.depth = sc₂.depth ∧
      sc₁.confidence = sc₂.confidence ∧
      sc₁.communication = sc₂.communication :=
  c5_scoring_pure initState initState rfl

/-- C6: every Score the page produces has each sub-score and the aggregate
within the closed interval [0, 10]. -/
theorem c6_scores_in_range (s : PageState) (sc : Score)
    (h : (endSession s).score = some sc) :
    (0 ≤ sc.technical_accuracy ∧ sc.technical_accuracy ≤ 10) ∧
    (0 ≤ sc.clarity ∧ sc.clarity ≤ 10) ∧
    (0 ≤ sc.depth ∧ sc.depth ≤ 10) ∧
    (0 ≤ sc.confidence ∧ sc.confidence ≤ 10) ∧
    (0 ≤ sc.communication ∧ sc.communication ≤ 10) ∧
    (0 ≤ sc.overall ∧ sc.overall ≤ 10) := by
  have hsc : mockScore = sc := Option.some.inj h
  subst hsc
  norm_num [mockScore]

/-- C6 witness: the bounds evaluated on the one score the page produces. -/
theorem c6_witness :
    (0 ≤ mockScore.technical_accuracy ∧ mockScore.technical_accuracy ≤ 10) ∧
    (0 ≤ mockScore.clarity ∧ mockScore.clarity ≤ 10) ∧
    (0 ≤ mockScore.depth ∧ mockScore.depth ≤ 10) ∧
    (0 ≤ mockScore.confidence ∧ mockScore.confidence ≤ 10) ∧
    (0 ≤ mockScore.communication ∧ mockScore.communication ≤ 10) ∧
    (0 ≤ mockScore.overall ∧ mockScore.overall ≤ 10) :=
  c6_scores_in_range initState mockScore rfl

/-- C7: while a student turn is being processed or the interviewer
utterance is being delivered, the record button is disabled, so a click
does nothing and no new utterance can begin; once both flags clear, a
click starts recording again. -/
theorem c7_no_overlapping_turn :
    (∀ s : PageState, s.isProcessing = true ∨ s.isAISpeaking = true →
      clickRecordButton s = s) ∧
    (∀ s : PageState, s.isProcessing = false → s.isAISpeaking = false →
      s.isRecording = false → (clickRecordButton s).isRecording = true) := by
  constructor
  · intro s h
    have hd : recordButtonDisabled s = true := by
      rcases h with h | h <;> simp [recordButtonDisabled, h]
    simp [clickRecordButton, hd]
  · intro s h1 h2 h3
    simp [clickRecordButton, recordButtonDisabled, h1, h2, toggleRecording,
      h3, startRecording]

/-- C7 witness: a click during processing is rejected as a no-op. -/
theorem c7_witness :
    clickRecordButton { initState with isProcessing := true } =
      { initState with isProcessing := true } :=
  c7_no_overlapping_turn.1 { initState with isProcessing := true }
    (Or.inl rfl)

/-- C8: when the session-start request fails, a session is still created
locally with id `demo-session` and the same fixed interviewer greeting as
the first turn; no error state exists on the page, and the resulting state
is exactly the success-path state for id `demo-session` after the greeting
animation ends. -/
theorem c8_start_failure_demo_fallback :
    (startSessionErr initState).sessionId = some "demo-session" ∧
    (startSessionErr initState).messages = [welcomeMessage] ∧
    welcomeMessage.role = Role.assistant ∧
    welcomeMessage.content = welcomeContent ∧
    (startSessionErr initState).sessionEnded = false ∧
    (startSessionErr initState).score = none ∧
    startSessionErr initState =
      greetTimerFire (startSessionOk "demo-session" initState) :=
  ⟨rfl, rfl, rfl, rfl, rfl, rfl, rfl⟩

/-- C9: from any state, a completed recording cycle (stop, processing
timeout, speaking timeout) appends exactly two turns, the canned student
answer then the canned interviewer follow-up; their contents are fixed
constants, independent of the state and of any audio (none is captured:
the embedding of `startRecording` has no audio input at all). -/
theorem c9_recording_appends_two_canned_turns (s : PageState) :
    (speakTimerFire (processTimerFire (stopRecording s))).messages =
      s.messages ++
        [studentReplyMessage (s.messages.length + 1),
          followUpMessage (s.messages.length + 2)] ∧
    (studentReplyMessage (s.messages.length + 1)).role = Role.user ∧
    (studentReplyMessage (s.messages.length + 1)).content
        = studentAnswerContent ∧
    (followUpMessage (s.messages.length + 2)).role = Role.assistant ∧
    (followUpMessage (s.messages.length + 2)).content = followUpContent := by
  refine ⟨?_, rfl, rfl, rfl, rfl⟩
  simp [speakTimerFire, processTimerFire, stopRecording]

/-- C10: the claim fails as stated.  At `seconds = 6000` the minutes value
is `100`, which `padStart(2, '0')` leaves as the three-digit numeral
`100`, so the output `100:00` has length 6 where a two-digit:two-digit
rendering would have length 5. -/
theorem c10_counterexample :
    formatTime 6000 = "100:00" ∧ (formatTime 6000).length ≠ 5 :=
  ⟨by decide, by decide⟩

/-- C10 (amended): for every non-negative integer `s`, the formatter
returns `floor(s / 60)` and `s mod 60`, each rendered in decimal and
zero-padded on the left to a minimum width of two digits (exactly two
only while the value is below 100), joined by a colon. -/
theorem c10_formatTime_pads_to_min_two (seconds : Nat) :
    formatTime seconds =
      zeroPadTwo (seconds / 60) ++ ":" ++ zeroPadTwo (seconds % 60) := by
  show padStart (toString (seconds / 60)) 2 '0' ++ ":" ++
      padStart (toString (seconds % 60)) 2 '0' =
    zeroPadTwo (seconds / 60) ++ ":" ++ zeroPadTwo (seconds % 60)
  rw [padStart_two_eq, padStart_two_eq]

end Viva
